import Mathlib

set_option maxRecDepth 4096

/-!
Verification of the suggestion endpoint in
`src/app/api/suggestions/route.ts`.

The handler is a single stateless function.  We embed it shallowly:

* JSON values are the inductive `JVal`; JavaScript truthiness, property
  access (including the `?.` optional chain, which yields `none` for both
  `undefined` and a `null` base), element indexing and string coercion are
  modelled by `jsTruthy`, `jsProp`, `jsIndex` and `jsToString`.
* The inbound body is a `ParsedBody`: either the parsed `JVal`, or
  `malformed msg` when `request.json()` rejects with a syntax error whose
  message is `msg`.
* The single outbound `fetch` is an oracle parameter `ProviderOutcome`:
  it timed out (the abort signal fired and `fetch` rejected with an
  `AbortError`), it failed with some other rejection, or it resolved with
  a status code and a body whose own JSON parse either succeeded or failed.
* `POST` returns the HTTP response together with `some` outbound request
  when the `fetch` was reached, `none` when it was not; the handler makes
  at most one provider call, so this component records all provider
  interaction of the request.
* Environment configuration (API key, model name) and the constant
  `temperature: 0.6` are process-wide constants irrelevant to the claims
  and are not modelled; outbound auth headers likewise.
-/

/-- A JSON value.  Numbers are restricted to integers: no claim involves
a fractional literal, and the handler never does arithmetic. -/
inductive JVal where
  | null : JVal
  | bool : Bool → JVal
  | num : Int → JVal
  | str : String → JVal
  | arr : List JVal → JVal
  | obj : List (String × JVal) → JVal

/-- JavaScript truthiness of a JSON value. -/
def jsTruthy : JVal → Bool
  | .null => false
  | .bool b => b
  | .num n => !(n == 0)
  | .str s => !(s == "")
  | .arr _ => true
  | .obj _ => true

/-- Truthiness of a possibly-`undefined` value (`none` = `undefined`). -/
def jsTruthyOpt : Option JVal → Bool
  | none => false
  | some v => jsTruthy v

/-- `v?.k`: property access through the optional chain.  Objects look the
key up; a `null` base short-circuits to `undefined`; primitives have none
of the properties the handler reads, so the access yields `undefined`. -/
def jsProp : JVal → String → Option JVal
  | .obj fs, k => (fs.find? (fun p => p.1 == k)).map (fun p => p.2)
  | _, _ => none

/-- `v?.[i]`: element access.  Arrays index positionally, strings yield a
one-character string, plain objects look up the decimal key; other values
(and a `null` base) yield `undefined`. -/
def jsIndex : JVal → Nat → Option JVal
  | .arr xs, i => xs[i]?
  | .str s, i => (s.data[i]?).map (fun c => .str (String.singleton c))
  | .obj fs, i => (fs.find? (fun p => p.1 == toString i)).map (fun p => p.2)
  | _, _ => none

mutual

/-- JavaScript `ToString` of a JSON value, as used by template-literal
interpolation and by property-key coercion. -/
def jsToString : JVal → String
  | .null => "null"
  | .bool b => if b then "true" else "false"
  | .num n => toString n
  | .str s => s
  | .arr xs => String.intercalate "," (jsToStringList xs)
  | .obj _ => "[object Object]"

/-- `Array.prototype.toString` stringifies elements, rendering `null`
as the empty string. -/
def jsToStringList : List JVal → List String
  | [] => []
  | .null :: vs => "" :: jsToStringList vs
  | v :: vs => jsToString v :: jsToStringList vs

end

/-- `ToString` applied to a possibly-`undefined` value: `undefined`
stringifies to the literal text "undefined". -/
def jsToStringOpt : Option JVal → String
  | none => "undefined"
  | some v => jsToString v

/-- `String.prototype.trim`: removes leading and trailing whitespace. -/
def jsTrim (s : String) : String :=
  ⟨((s.data.dropWhile Char.isWhitespace).reverse.dropWhile Char.isWhitespace).reverse⟩

/-- `data?.choices?.[0]?.message?.content` (route.ts line 108). -/
def extractContent (data : JVal) : Option JVal :=
  ((((jsProp data "choices").bind (fun v => jsIndex v 0)).bind
      (fun v => jsProp v "message")).bind
      (fun v => jsProp v "content"))

/-- The `fieldFocus` record (route.ts lines 19-26). -/
def fieldFocus : List (String × String) :=
  [("currentFinancialSituation",
    "current income sources, essential expenses, debts, and concrete examples of financial strain or recent hardship"),
   ("employmentCircumstances",
    "employment status, hours or income level, stability of work, caregiving or health barriers, and any recent changes affecting employment"),
   ("reasonForApplying",
    "specific reasons for seeking support now, the type of assistance needed, and how it will help meet urgent household needs")]

/-- The `fieldGuidance` record (route.ts lines 28-35). -/
def fieldGuidance : List (String × String) :=
  [("currentFinancialSituation",
    "Begin with the main financial pressure (for example rising bills, debt, or reduced income). Mention amounts when they help explain the strain. Avoid greetings or introductions."),
   ("employmentCircumstances",
    "Start by describing the current work situation or lack of work. Include hours worked, pay level, or caregiving/health limits if relevant. Avoid greetings or introductions."),
   ("reasonForApplying",
    "Lead with the immediate need for assistance and connect it to day-to-day realities. Highlight how support would be used. Avoid greetings or introductions.")]

/-- Indexing a plain-object record with a string key: `table[key]` is the
value when the key is present, `undefined` otherwise. -/
def recordLookup (table : List (String × String)) (k : String) : Option String :=
  (table.find? (fun p => p.1 == k)).map (fun p => p.2)

/-- Opening text of the system message, up to the interpolated focus
description (route.ts line 76). -/
def sysPre : String :=
  "You are assisting with drafting a government social support application. Write in the applicant's first-person voice as if they are typing their own paragraph. Keep the tone sincere, respectful, and grounded in practical details. Never use greetings, introductions, or phrases like \"Hello\" or \"My name is\". Do not repeat names, ID numbers, phone numbers, or other personal identifiers. Focus tightly on "

/-- Closing text of the system message, after the interpolated focus
description (route.ts line 76). -/
def sysPost : String :=
  ". Limit the response to one paragraph under 120 words, avoid bullet lists, and never refer to yourself as an assistant or AI."

/-- `${fieldFocus[body.field]}`: the record is indexed with the coerced
key and the result is interpolated, so a missing entry renders as the
text "undefined". -/
def focusText (body : JVal) : String :=
  match recordLookup fieldFocus (jsToStringOpt (jsProp body "field")) with
  | some s => s
  | none => "undefined"

/-- The content of the system message (route.ts line 76). -/
def systemContent (body : JVal) : String :=
  sysPre ++ focusText body ++ sysPost

/-- Strict equality `v === lit` between a possibly-`undefined` value and
a string literal: true exactly when the value is that string. -/
def jsStrictEqStr (v : Option JVal) (lit : String) : Bool :=
  match v with
  | some (.str s) => s == lit
  | _ => false

/-- `body.language === 'ar' ? 'Arabic' : 'English'` (route.ts line 81). -/
def langWord (body : JVal) : String :=
  if jsStrictEqStr (jsProp body "language") "ar" then "Arabic" else "English"

/-- The fixed second element of the user-message array (route.ts line 82). -/
def toneLine : String :=
  "Sound like a real person describing lived experience in a warm but direct way. Do not start with a greeting."

/-- `fieldGuidance[body.field]` (route.ts line 83): the raw lookup, which
is `undefined` (not a string) when the field has no entry. -/
def guidanceSeg (body : JVal) : Option String :=
  recordLookup fieldGuidance (jsToStringOpt (jsProp body "field"))

/-- `body.applicantDetails ? `Applicant context: ...` : ''`
(route.ts line 84). -/
def applicantSeg (body : JVal) : String :=
  if jsTruthyOpt (jsProp body "applicantDetails")
  then "Applicant context: " ++ jsToStringOpt (jsProp body "applicantDetails") ++ "."
  else ""

/-- `body.existingText ? `Applicant notes: ...` : ''` (route.ts line 85). -/
def notesSeg (body : JVal) : String :=
  if jsTruthyOpt (jsProp body "existingText")
  then "Applicant notes: " ++ jsToStringOpt (jsProp body "existingText")
  else ""

/-- The five-element array built at route.ts lines 80-86, before
`.filter(Boolean)`: the third element may be `undefined`. -/
def rawUserSegments (body : JVal) : List (Option String) :=
  [some ("Write the paragraph in " ++ langWord body ++ "."),
   some toneLine,
   guidanceSeg body,
   some (applicantSeg body),
   some (notesSeg body)]

/-- `.filter(Boolean)` over an array of strings and `undefined`:
keeps exactly the truthy (non-empty) strings. -/
def jsFilterBoolean (xs : List (Option String)) : List String :=
  xs.filterMap (fun o =>
    match o with
    | some s => if s == "" then none else some s
    | none => none)

/-- The user-message segments surviving `.filter(Boolean)`
(route.ts line 87). -/
def userSegments (body : JVal) : List String :=
  jsFilterBoolean (rawUserSegments body)

/-- The content of the user message: the surviving segments joined with
single spaces (route.ts line 88). -/
def userContent (body : JVal) : String :=
  String.intercalate " " (userSegments body)

/-- One element of the outbound `messages` array. -/
structure ChatMessage where
  role : String
  content : String

/-- The data of the outbound provider request that the claims inspect:
the system and user messages (route.ts lines 73-90). -/
structure OutboundRequest where
  messages : List ChatMessage

/-- The outbound chat-completion request built for a validated body. -/
def outboundRequest (body : JVal) : OutboundRequest :=
  { messages := [⟨"system", systemContent body⟩, ⟨"user", userContent body⟩] }

/-- Result of `await request.json()`: the parsed value, or the message of
the syntax error it rejected with. -/
inductive ParsedBody where
  | malformed : String → ParsedBody
  | parsed : JVal → ParsedBody

/-- Result of `response.json()` on the provider's response body: a parsed
value, or the message of the error the parse rejected with. -/
inductive BodyParse where
  | ok : JVal → BodyParse
  | fail : String → BodyParse

/-- Outcome of the single outbound `fetch`: the 20-second abort fired and
the call rejected with an `AbortError`; the call rejected with some other
error carrying a message; or it resolved with a status and a body. -/
inductive ProviderOutcome where
  | timeout : ProviderOutcome
  | networkError : String → ProviderOutcome
  | response : Nat → BodyParse → ProviderOutcome

/-- An HTTP response: status, optional JSON body (`none` is a null body),
and headers in insertion order. -/
structure HttpResponse where
  status : Nat
  body : Option JVal
  headers : List (String × String)

/-- A fresh `NextResponse` with the given status and JSON body; responses
are created with no custom headers. -/
def mkResponse (status : Nat) (body : Option JVal) : HttpResponse :=
  { status := status, body := body, headers := [] }

/-- The JSON body `{ "error": msg }`. -/
def errBody (msg : String) : Option JVal :=
  some (.obj [("error", .str msg)])

/-- The `corsHeaders` constant (route.ts lines 37-41). -/
def corsHeaders : List (String × String) :=
  [("Access-Control-Allow-Origin", "*"),
   ("Access-Control-Allow-Methods", "POST, OPTIONS"),
   ("Access-Control-Allow-Headers", "Content-Type, Authorization")]

/-- `headers.set`: replaces an existing entry for the key, otherwise
appends. -/
def setHeader (hs : List (String × String)) (k v : String) :
    List (String × String) :=
  if hs.any (fun p => p.1 == k)
  then hs.map (fun p => if p.1 == k then (k, v) else p)
  else hs ++ [(k, v)]

/-- `withCors` (route.ts lines 43-48): sets each of the three CORS
headers on the response. -/
def withCors (r : HttpResponse) : HttpResponse :=
  { r with headers := corsHeaders.foldl (fun hs kv => setHeader hs kv.1 kv.2) r.headers }

/-- The `OPTIONS` handler (route.ts lines 50-52): 204, null body,
CORS headers. -/
def OPTIONS : HttpResponse :=
  withCors (mkResponse 204 none)

/-- The message extracted from a non-success provider body
(route.ts lines 99-103): `errorPayload?.error?.message` when that is a
string — with a failed body parse replaced by `{}` — else the generic
message. -/
def providerErrorMessage (bp : BodyParse) : String :=
  match (jsProp (match bp with | .ok v => v | .fail _ => .obj []) "error").bind
      (fun e => jsProp e "message") with
  | some (.str s) => s
  | _ => "Unable to generate suggestion."

/-- The `POST` handler (route.ts lines 54-123).  Returns the response
paired with the outbound request when the provider call was reached,
`none` when it was not.  The branches mirror the source:

* a malformed body makes `request.json()` throw a syntax error, whose
  name is not "AbortError", so the catch block returns 500 with its
  message;
* falsy `field` or `language` returns 400 before any call;
* an aborted call rejects with an `AbortError`, caught as 504;
* any other rejection is caught as 500 with the error's message;
* a non-2xx status propagates the status with the extracted message;
* a 2xx status whose body fails to parse makes `response.json()` throw,
  caught as 500 with the parse error's message;
* falsy extracted content returns 500 "No suggestion received.";
* string content returns 200 with the trimmed text; on any other truthy
  value `content.trim` is not a function, and the thrown `TypeError`
  (message "content.trim is not a function") is caught as 500.  The
  non-string arm also absorbs the unreachable `undefined` case, which
  the falsy check has already filtered out. -/
def POST (pb : ParsedBody) (provider : ProviderOutcome) :
    HttpResponse × Option OutboundRequest :=
  match pb with
  | .malformed msg => (withCors (mkResponse 500 (errBody msg)), none)
  | .parsed body =>
    if !(jsTruthyOpt (jsProp body "field")) || !(jsTruthyOpt (jsProp body "language"))
    then (withCors (mkResponse 400 (errBody "Missing required fields.")), none)
    else
      match provider with
      | .timeout =>
        (withCors (mkResponse 504 (errBody "The request timed out.")),
         some (outboundRequest body))
      | .networkError msg =>
        (withCors (mkResponse 500 (errBody msg)), some (outboundRequest body))
      | .response status bp =>
        if !(200 ≤ status && status ≤ 299)
        then
          (withCors (mkResponse status (errBody (providerErrorMessage bp))),
           some (outboundRequest body))
        else
          match bp with
          | .fail msg =>
            (withCors (mkResponse 500 (errBody msg)), some (outboundRequest body))
          | .ok data =>
            if !(jsTruthyOpt (extractContent data))
            then
              (withCors (mkResponse 500 (errBody "No suggestion received.")),
               some (outboundRequest body))
            else
              match extractContent data with
              | some (.str s) =>
                (withCors (mkResponse 200 (some (.obj [("suggestion", .str (jsTrim s))]))),
                 some (outboundRequest body))
              | _ =>
                (withCors (mkResponse 500 (errBody "content.trim is not a function")),
                 some (outboundRequest body))

/-! ### Sample request bodies used by witnesses -/

/-- A minimal valid request body. -/
def cBody : JVal :=
  .obj [("field", .str "reasonForApplying"), ("language", .str "en")]

/-- A valid request body carrying applicant details. -/
def cBodyApp : JVal :=
  .obj [("field", .str "reasonForApplying"), ("language", .str "en"),
        ("applicantDetails", .str "Two kids at home")]

/-- A request body whose `field` is a non-empty string outside the
supported enumeration. -/
def cBodyOdd : JVal :=
  .obj [("field", .str "somethingElse"), ("language", .str "en")]

/-- A provider body whose generated content is the number `5` rather
than a string. -/
def dataNum : JVal :=
  .obj [("choices", .arr [.obj [("message", .obj [("content", .num 5)])]])]

/-- A provider body with the given string at
`choices[0].message.content`. -/
def dataWith (s : String) : JVal :=
  .obj [("choices", .arr [.obj [("message", .obj [("content", .str s)])]])]

/-! ### General helper lemmas -/

/-- Two strings differ when some position inside the second's fixed part
distinguishes them, whatever is appended to the second. -/
theorem lit_ne_append (a q : String) (i : Nat) (hq : i < q.data.length)
    (hne : a.data[i]? ≠ q.data[i]?) (d : String) : a ≠ q ++ d := by
  intro h
  apply hne
  have hd : a.data = q.data ++ d.data := by
    have h2 := congrArg String.data h
    rwa [String.data_append] at h2
  rw [hd]
  exact List.getElem?_append_left hq

/-- Two concatenations differ when their fixed left parts differ at a
common position. -/
theorem append_ne_append (p q : String) (i : Nat)
    (hp : i < p.data.length) (hq : i < q.data.length)
    (hne : p.data[i]? ≠ q.data[i]?) (t d : String) : p ++ t ≠ q ++ d := by
  intro h
  apply hne
  have hd : p.data ++ t.data = q.data ++ d.data := by
    have h2 := congrArg String.data h
    rwa [String.data_append, String.data_append] at h2
  calc p.data[i]? = (p.data ++ t.data)[i]? := (List.getElem?_append_left hp).symm
    _ = (q.data ++ d.data)[i]? := by rw [hd]
    _ = q.data[i]? := List.getElem?_append_left hq

/-- String concatenation is associative. -/
theorem str_append_assoc (a b c : String) : a ++ b ++ c = a ++ (b ++ c) :=
  String.ext (by rw [String.data_append, String.data_append,
    String.data_append, String.data_append, List.append_assoc])

/-- A string ending in a period is not empty. -/
theorem append_dot_ne_empty (a : String) : a ++ "." ≠ "" := by
  intro h
  have h2 := congrArg String.data h
  rw [String.data_append] at h2
  simp at h2

/-- Inverting one step of the `.filter(Boolean)` embedding. -/
theorem filterBool_some {s seg : String}
    (hfo : (if s == "" then none else some s) = some seg) :
    seg = s ∧ s ≠ "" := by
  split at hfo
  · cases hfo
  · rename_i hcond
    exact ⟨(Option.some.inj hfo).symm, by simpa using hcond⟩

/-- A successful record lookup returns the value of some table entry. -/
theorem recordLookup_mem {table : List (String × String)} {k v : String}
    (h : recordLookup table k = some v) : ∃ p ∈ table, p.2 = v := by
  unfold recordLookup at h
  obtain ⟨p, hfind, hv⟩ := Option.map_eq_some'.mp h
  exact ⟨p, List.mem_of_find?_eq_some hfind, hv⟩

/-! ### Shape lemmas about the handler -/

/-- Every exit of `POST` is a fresh JSON response passed through
`withCors`. -/
theorem POST_fst_shape (pb : ParsedBody) (pr : ProviderOutcome) :
    ∃ s b, (POST pb pr).1 = withCors (mkResponse s b) := by
  unfold POST
  repeat' split
  all_goals exact ⟨_, _, rfl⟩

/-- Once validation passes, the provider call is made, whatever the
provider then does. -/
theorem POST_snd_called (body : JVal) (pr : ProviderOutcome)
    (hf : jsTruthyOpt (jsProp body "field") = true)
    (hl : jsTruthyOpt (jsProp body "language") = true) :
    (POST (.parsed body) pr).2 = some (outboundRequest body) := by
  unfold POST
  dsimp only
  rw [hf, hl]
  simp only [Bool.not_true, Bool.or_self, Bool.false_eq_true, if_false]
  repeat' split
  all_goals rfl

/-- A validated request whose provider returns 200 with falsy extracted
content yields the empty-response error. -/
theorem POST_ok_falsy (body data : JVal)
    (hf : jsTruthyOpt (jsProp body "field") = true)
    (hl : jsTruthyOpt (jsProp body "language") = true)
    (hc : jsTruthyOpt (extractContent data) = false) :
    POST (.parsed body) (.response 200 (.ok data)) =
      (withCors (mkResponse 500 (errBody "No suggestion received.")),
       some (outboundRequest body)) := by
  unfold POST
  dsimp only
  rw [hf, hl, hc]
  simp

/-- A validated request whose provider returns 200 with a non-empty
string at the content path yields 200 with the trimmed text. -/
theorem POST_ok_string (body data : JVal) (s : String)
    (hf : jsTruthyOpt (jsProp body "field") = true)
    (hl : jsTruthyOpt (jsProp body "language") = true)
    (hc : extractContent data = some (.str s)) (hs : s ≠ "") :
    POST (.parsed body) (.response 200 (.ok data)) =
      (withCors (mkResponse 200 (some (.obj [("suggestion", .str (jsTrim s))]))),
       some (outboundRequest body)) := by
  have ht : jsTruthyOpt (extractContent data) = true := by
    rw [hc]
    simp [jsTruthyOpt, jsTruthy, hs]
  unfold POST
  dsimp only
  rw [hf, hl, ht, hc]
  simp

/-! ### User-message segment lemmas -/

/-- Any surviving user-message segment is one of the five array slots. -/
theorem mem_userSegments {body : JVal} {seg : String}
    (h : seg ∈ userSegments body) :
    seg = "Write the paragraph in " ++ langWord body ++ "." ∨
    seg = toneLine ∨
    guidanceSeg body = some seg ∨
    seg = applicantSeg body ∨
    seg = notesSeg body := by
  unfold userSegments jsFilterBoolean at h
  rw [List.mem_filterMap] at h
  obtain ⟨o, ho, hfo⟩ := h
  simp only [rawUserSegments, List.mem_cons, List.not_mem_nil, or_false] at ho
  rcases ho with h1 | h2 | h3 | h4 | h5
  · subst h1
    exact Or.inl (filterBool_some hfo).1
  · subst h2
    exact Or.inr (Or.inl (filterBool_some hfo).1)
  · refine Or.inr (Or.inr (Or.inl ?_))
    cases hg : guidanceSeg body with
    | none => rw [h3, hg] at hfo; cases hfo
    | some g =>
      rw [h3, hg] at hfo
      exact congrArg some (filterBool_some hfo).1.symm
  · subst h4
    exact Or.inr (Or.inr (Or.inr (Or.inl (filterBool_some hfo).1)))
  · subst h5
    exact Or.inr (Or.inr (Or.inr (Or.inr (filterBool_some hfo).1)))

/-- The empty string never survives `.filter(Boolean)`. -/
theorem empty_not_mem_userSegments (body : JVal) :
    "" ∉ userSegments body := by
  intro h
  unfold userSegments jsFilterBoolean at h
  rw [List.mem_filterMap] at h
  obtain ⟨o, _, hfo⟩ := h
  cases o with
  | none => cases hfo
  | some s =>
    obtain ⟨hseg, hne⟩ := filterBool_some hfo
    exact hne hseg.symm

/-! ### CORS helper lemmas -/

/-- The three cross-origin headers of the claims. -/
def hasCorsHeaders (r : HttpResponse) : Prop :=
  ("Access-Control-Allow-Origin", "*") ∈ r.headers ∧
  ("Access-Control-Allow-Methods", "POST, OPTIONS") ∈ r.headers ∧
  ("Access-Control-Allow-Headers", "Content-Type, Authorization") ∈ r.headers

/-- A fresh response passed through `withCors` carries exactly the three
CORS headers. -/
theorem withCors_mkResponse_headers (s : Nat) (b : Option JVal) :
    (withCors (mkResponse s b)).headers = corsHeaders := rfl

/-- A fresh response passed through `withCors` carries the three CORS
headers. -/
theorem hasCors_withCors (s : Nat) (b : Option JVal) :
    hasCorsHeaders (withCors (mkResponse s b)) := by
  unfold hasCorsHeaders
  rw [withCors_mkResponse_headers]
  refine ⟨?_, ?_, ?_⟩ <;> decide

/-! ### The claims -/

/-- C1: a POST whose JSON body parses but is missing a non-empty `field`
or a non-empty `language` (absent, empty string, or null) returns HTTP
400 with body `{ "error": "Missing required fields." }`, and no outbound
provider call is attempted. -/
theorem claim_C1_missing_fields (body : JVal) (pr : ProviderOutcome)
    (h : jsProp body "field" = none ∨ jsProp body "field" = some (.str "") ∨
         jsProp body "field" = some .null ∨
         jsProp body "language" = none ∨
         jsProp body "language" = some (.str "") ∨
         jsProp body "language" = some .null) :
    POST (.parsed body) pr =
      (withCors (mkResponse 400 (errBody "Missing required fields.")), none) := by
  have hcond : (!jsTruthyOpt (jsProp body "field") ||
      !jsTruthyOpt (jsProp body "language")) = true := by
    rcases h with h | h | h | h | h | h <;> simp [h, jsTruthyOpt, jsTruthy]
  unfold POST
  dsimp only
  rw [hcond]
  simp

/-- C1 witness: a body with `language` but no `field` is rejected. -/
theorem claim_C1_missing_fields_witness :
    POST (.parsed (.obj [("language", .str "en")])) .timeout =
      (withCors (mkResponse 400 (errBody "Missing required fields.")), none) :=
  claim_C1_missing_fields (.obj [("language", .str "en")]) .timeout (Or.inl rfl)

/-- C2 counterexample: a request whose body is not parseable as JSON is
surfaced with HTTP status 500, not the claimed 400. -/
theorem claim_C2_malformed_counterexample :
    (POST (.malformed "Unexpected end of JSON input") .timeout).1.status = 500 ∧
    ¬ (POST (.malformed "Unexpected end of JSON input") .timeout).1.status = 400 :=
  ⟨rfl, by decide⟩

/-- C2 amended: a request whose body is not parseable as JSON is caught
by the generic exception handler and surfaced as HTTP 500 with the parse
error's message, with no outbound provider call; it is not surfaced as
HTTP 400. -/
theorem claim_C2_malformed_amended (msg : String) (pr : ProviderOutcome) :
    POST (.malformed msg) pr =
      (withCors (mkResponse 500 (errBody msg)), none) := rfl

/-- C3: a valid request whose provider call hits the 20-second abort
returns HTTP 504 with body `{ "error": "The request timed out." }`; the
single outbound call is the only provider interaction. -/
theorem claim_C3_timeout (body : JVal)
    (hf : jsTruthyOpt (jsProp body "field") = true)
    (hl : jsTruthyOpt (jsProp body "language") = true) :
    POST (.parsed body) .timeout =
      (withCors (mkResponse 504 (errBody "The request timed out.")),
       some (outboundRequest body)) := by
  unfold POST
  dsimp only
  rw [hf, hl]
  simp

/-- C3 witness. -/
theorem claim_C3_timeout_witness :
    POST (.parsed cBody) .timeout =
      (withCors (mkResponse 504 (errBody "The request timed out.")),
       some (outboundRequest cBody)) :=
  claim_C3_timeout cBody rfl rfl

/-- C4: a non-success provider status is propagated unchanged, with the
message taken from `error.message` of the provider's JSON error body
when that exists and is a string, and the generic
"Unable to generate suggestion." otherwise (including a body that fails
to parse). -/
theorem claim_C4_provider_error (body : JVal) (status : Nat) (bp : BodyParse)
    (hf : jsTruthyOpt (jsProp body "field") = true)
    (hl : jsTruthyOpt (jsProp body "language") = true)
    (hst : ¬ (200 ≤ status ∧ status ≤ 299)) :
    POST (.parsed body) (.response status bp) =
      (withCors (mkResponse status (errBody (providerErrorMessage bp))),
       some (outboundRequest body)) := by
  have hb : (decide (200 ≤ status) && decide (status ≤ 299)) = false := by
    simp only [Bool.and_eq_false_iff, decide_eq_false_iff_not]
    omega
  unfold POST
  dsimp only
  rw [hf, hl, hb]
  simp

/-- C4 witness: a 429 with `{"error":{"message":"quota exceeded"}}`
yields the same status and error "quota exceeded". -/
theorem claim_C4_provider_error_witness :
    POST (.parsed cBody)
        (.response 429 (.ok (.obj [("error", .obj [("message", .str "quota exceeded")])]))) =
      (withCors (mkResponse 429 (errBody "quota exceeded")),
       some (outboundRequest cBody)) :=
  claim_C4_provider_error cBody 429
    (.ok (.obj [("error", .obj [("message", .str "quota exceeded")])]))
    rfl rfl (by omega)

/-- C5 counterexample: a 200 provider response whose
`choices[0].message.content` holds the number `5` — so no text is at
that location — is answered with HTTP 500, but its body carries the
`TypeError` message thrown by `content.trim()`, not
"No suggestion received.". -/
theorem claim_C5_counterexample :
    extractContent dataNum = some (.num 5) ∧
    (POST (.parsed cBody) (.response 200 (.ok dataNum))).1.status = 500 ∧
    (POST (.parsed cBody) (.response 200 (.ok dataNum))).1.body =
      errBody "content.trim is not a function" ∧
    "content.trim is not a function" ≠ "No suggestion received." :=
  ⟨rfl, rfl, rfl, by decide⟩

/-- C5 amended: a 200 provider response whose value at
`choices[0].message.content` is absent or falsy (missing, null, false,
0, or the empty string) yields HTTP 500 with body
`{ "error": "No suggestion received." }`; when a truthy non-string value
sits there instead, the `trim` call throws and the 500 body carries that
`TypeError`'s message. -/
theorem claim_C5_no_content (body data : JVal)
    (hf : jsTruthyOpt (jsProp body "field") = true)
    (hl : jsTruthyOpt (jsProp body "language") = true)
    (hc : jsTruthyOpt (extractContent data) = false) :
    POST (.parsed body) (.response 200 (.ok data)) =
      (withCors (mkResponse 500 (errBody "No suggestion received.")),
       some (outboundRequest body)) :=
  POST_ok_falsy body data hf hl hc

/-- C5 witness: a 200 body with no `choices` entry at all. -/
theorem claim_C5_no_content_witness :
    POST (.parsed cBody) (.response 200 (.ok (.obj [("id", .str "x")]))) =
      (withCors (mkResponse 500 (errBody "No suggestion received.")),
       some (outboundRequest cBody)) :=
  claim_C5_no_content cBody (.obj [("id", .str "x")]) rfl rfl rfl

/-- C6: a 200 provider response with a non-empty string at
`choices[0].message.content` yields HTTP 200 whose `suggestion` field is
that content trimmed of surrounding whitespace. -/
theorem claim_C6_success_trims (body data : JVal) (s : String)
    (hf : jsTruthyOpt (jsProp body "field") = true)
    (hl : jsTruthyOpt (jsProp body "language") = true)
    (hc : extractContent data = some (.str s)) (hs : s ≠ "") :
    POST (.parsed body) (.response 200 (.ok data)) =
      (withCors (mkResponse 200 (some (.obj [("suggestion", .str (jsTrim s))]))),
       some (outboundRequest body)) :=
  POST_ok_string body data s hf hl hc hs

/-- C6 witness: content "  Hello world.  " yields
`{"suggestion": "Hello world."}`. -/
theorem claim_C6_success_trims_witness :
    POST (.parsed cBody) (.response 200 (.ok (dataWith "  Hello world.  "))) =
      (withCors (mkResponse 200 (some (.obj [("suggestion", .str "Hello world.")]))),
       some (outboundRequest cBody)) :=
  claim_C6_success_trims cBody (dataWith "  Hello world.  ") "  Hello world.  "
    rfl rfl rfl (by decide)

/-- C7: when `applicantDetails` is absent or empty, no
"Applicant context" segment appears among the user-message segments;
when it is a non-empty string `d`, the segment
`"Applicant context: " ++ d ++ "."` appears, carrying `d` verbatim after
the prefix; and no empty placeholder segment is ever sent. -/
theorem claim_C7_applicant_context (body : JVal) :
    ((jsProp body "applicantDetails" = none ∨
      jsProp body "applicantDetails" = some (.str "")) →
      ∀ seg ∈ userSegments body, ∀ d : String,
        seg ≠ "Applicant context: " ++ d) ∧
    (∀ d : String, jsProp body "applicantDetails" = some (.str d) → d ≠ "" →
      ("Applicant context: " ++ d ++ ".") ∈ userSegments body) ∧
    "" ∉ userSegments body := by
  refine ⟨?_, ?_, empty_not_mem_userSegments body⟩
  · intro hAD seg hseg d
    have happ : applicantSeg body = "" := by
      unfold applicantSeg
      rcases hAD with h | h <;> rw [h] <;> rfl
    rcases mem_userSegments hseg with h1 | h2 | h3 | h4 | h5
    · rw [h1, str_append_assoc]
      exact append_ne_append "Write the paragraph in " "Applicant context: " 0
        (by decide) (by decide) (by decide) _ _
    · rw [h2]
      exact lit_ne_append toneLine "Applicant context: " 0 (by decide) (by decide) _
    · unfold guidanceSeg at h3
      obtain ⟨p, hp, hv⟩ := recordLookup_mem h3
      simp only [fieldGuidance, List.mem_cons, List.not_mem_nil, or_false] at hp
      rcases hp with h | h | h <;> subst h <;> rw [← hv] <;>
        exact lit_ne_append _ "Applicant context: " 0 (by decide) (by decide) _
    · rw [h4, happ]
      exact lit_ne_append "" "Applicant context: " 0 (by decide) (by decide) _
    · rw [h5]
      unfold notesSeg
      split
      · exact append_ne_append "Applicant notes: " "Applicant context: " 10
          (by decide) (by decide) (by decide) _ _
      · exact lit_ne_append "" "Applicant context: " 0 (by decide) (by decide) _
  · intro d hAD hd
    have htr : jsTruthyOpt (jsProp body "applicantDetails") = true := by
      rw [hAD]
      simp [jsTruthyOpt, jsTruthy, hd]
    have happ : applicantSeg body = "Applicant context: " ++ d ++ "." := by
      unfold applicantSeg
      rw [hAD] at htr ⊢
      simp [htr, jsToStringOpt, jsToString]
    have hne0 : (("Applicant context: " ++ d ++ ".") == "") = false := by
      rw [beq_eq_false_iff_ne]
      exact append_dot_ne_empty _
    unfold userSegments jsFilterBoolean
    rw [List.mem_filterMap]
    refine ⟨some (applicantSeg body), ?_, ?_⟩
    · simp [rawUserSegments]
    · rw [happ]
      dsimp only
      rw [hne0]
      rfl

/-- C7 witness: with details "Two kids at home" the prefixed segment is
sent; with no details the language segment is not an
"Applicant context" segment. -/
theorem claim_C7_applicant_context_witness :
    ("Applicant context: Two kids at home.") ∈ userSegments cBodyApp ∧
    "Write the paragraph in English." ≠ "Applicant context: " ++ "x" := by
  constructor
  · exact (claim_C7_applicant_context cBodyApp).2.1 "Two kids at home" rfl (by decide)
  · exact (claim_C7_applicant_context cBody).1 (Or.inl rfl)
      "Write the paragraph in English." (by decide) "x"

/-- C8: every response of the endpoint — every POST exit, for any body
and provider behaviour, and the OPTIONS pre-flight response — carries
the three fixed cross-origin headers. -/
theorem claim_C8_cors_headers (pb : ParsedBody) (pr : ProviderOutcome) :
    hasCorsHeaders (POST pb pr).1 ∧ hasCorsHeaders OPTIONS := by
  obtain ⟨s, b, hsb⟩ := POST_fst_shape pb pr
  rw [hsb]
  exact ⟨hasCors_withCors s b, hasCors_withCors 204 none⟩

/-- C9: a non-empty `field` outside the three-value enumeration passes
validation, so the outbound call is still made; both lookups yield no
entry, and the system prompt interpolates the literal text "undefined"
in place of the focus description. -/
theorem claim_C9_unknown_field (body : JVal) (f : String) (pr : ProviderOutcome)
    (hfv : jsProp body "field" = some (.str f)) (hne : f ≠ "")
    (h1 : f ≠ "currentFinancialSituation")
    (h2 : f ≠ "employmentCircumstances")
    (h3 : f ≠ "reasonForApplying")
    (hl : jsTruthyOpt (jsProp body "language") = true) :
    (POST (.parsed body) pr).2 = some (outboundRequest body) ∧
    recordLookup fieldFocus f = none ∧
    recordLookup fieldGuidance f = none ∧
    systemContent body = sysPre ++ "undefined" ++ sysPost := by
  have hft : jsTruthyOpt (jsProp body "field") = true := by
    rw [hfv]
    simp [jsTruthyOpt, jsTruthy, hne]
  have e1 : (("currentFinancialSituation" : String) == f) = false :=
    beq_eq_false_iff_ne.mpr (Ne.symm h1)
  have e2 : (("employmentCircumstances" : String) == f) = false :=
    beq_eq_false_iff_ne.mpr (Ne.symm h2)
  have e3 : (("reasonForApplying" : String) == f) = false :=
    beq_eq_false_iff_ne.mpr (Ne.symm h3)
  have hlf : recordLookup fieldFocus f = none := by
    simp [recordLookup, fieldFocus, List.find?, e1, e2, e3]
  have hlg : recordLookup fieldGuidance f = none := by
    simp [recordLookup, fieldGuidance, List.find?, e1, e2, e3]
  refine ⟨POST_snd_called body pr hft hl, hlf, hlg, ?_⟩
  unfold systemContent focusText
  rw [hfv]
  simp [jsToStringOpt, jsToString, hlf]

/-- C9 witness: `field = "somethingElse"` is not rejected and renders
"undefined" into the system prompt. -/
theorem claim_C9_unknown_field_witness :
    (POST (.parsed cBodyOdd) .timeout).2 = some (outboundRequest cBodyOdd) ∧
    recordLookup fieldFocus "somethingElse" = none ∧
    recordLookup fieldGuidance "somethingElse" = none ∧
    systemContent cBodyOdd = sysPre ++ "undefined" ++ sysPost :=
  claim_C9_unknown_field cBodyOdd "somethingElse" .timeout rfl
    (by decide) (by decide) (by decide) (by decide) rfl

/-- C10: the emptiness check precedes trimming — a 200 response whose
content is a non-empty string that trims to nothing yields HTTP 200 with
an empty `suggestion`, while content equal to the empty string yields
HTTP 500 "No suggestion received.". -/
theorem claim_C10_check_precedes_trim (body data dataE : JVal) (s : String)
    (hf : jsTruthyOpt (jsProp body "field") = true)
    (hl : jsTruthyOpt (jsProp body "language") = true)
    (hc : extractContent data = some (.str s)) (hs : s ≠ "")
    (hw : jsTrim s = "")
    (hcE : extractContent dataE = some (.str "")) :
    (POST (.parsed body) (.response 200 (.ok data))).1 =
      withCors (mkResponse 200 (some (.obj [("suggestion", .str "")]))) ∧
    (POST (.parsed body) (.response 200 (.ok dataE))).1 =
      withCors (mkResponse 500 (errBody "No suggestion received.")) := by
  constructor
  · rw [POST_ok_string body data s hf hl hc hs]
    simp [hw]
  · have hcf : jsTruthyOpt (extractContent dataE) = false := by
      rw [hcE]
      rfl
    rw [POST_ok_falsy body dataE hf hl hcf]

/-- C10 witness: content "   " yields `{"suggestion": ""}` while content
"" yields the 500 empty-response error. -/
theorem claim_C10_check_precedes_trim_witness :
    (POST (.parsed cBody) (.response 200 (.ok (dataWith "   ")))).1 =
      withCors (mkResponse 200 (some (.obj [("suggestion", .str "")]))) ∧
    (POST (.parsed cBody) (.response 200 (.ok (dataWith "")))).1 =
      withCors (mkResponse 500 (errBody "No suggestion received.")) :=
  claim_C10_check_precedes_trim cBody (dataWith "   ") (dataWith "") "   "
    rfl rfl rfl (by decide) (by decide) rfl
